import Mathlib

/-!
# Shallow embedding of `CloudScraperWrapper` (src/cloudscraper.py)

The wrapper orchestrates rate-limited HTTP requests with an on-disk JSON
cache.  We embed its state and operations as pure Lean functions:

* wall-clock samples (`time.time()`, `datetime.now()`) are passed in as
  explicit rational arguments, in the order the Python code samples them;
* the external HTTP client (`self.scraper`) is an oracle argument: each
  operation receives the `HttpResult` the client would produce for that call
  (a response with status code and body, or a raised exception);
* the filesystem is part of the explicit `State`: cache files (parsed JSON
  or malformed content), existing directories, and downloaded binary files;
* Python exceptions that the code lets escape are modelled with `Except`:
  an operation whose body cannot raise to the caller returns a plain value.

Side effects that the claims mention (sleeping, issuing a network call) are
recorded in an event trace returned alongside the new state.
-/

/-- Python exceptions relevant to this embedding. -/
inductive PyErr where
  | jsonDecodeError
  | fileNotFoundError
  deriving DecidableEq, Repr

/-- One parsed cache file: `{"timestamp": ..., "url": ..., "data": ...}`.
The timestamp is the embedded value of the ISO-8601 string (seconds). -/
structure CacheEntry where
  timestamp : ℚ
  url : String
  data : String
  deriving DecidableEq, Repr

/-- On-disk content of a cache file: either a well-formed JSON object with
the three expected fields, or content on which `json.load` /
`datetime.fromisoformat` / the key lookups raise. -/
inductive CacheFile where
  | wellFormed (e : CacheEntry)
  | malformed
  deriving DecidableEq, Repr

/-- Observable side effects of one operation. -/
inductive Event where
  | sleep (duration : ℚ)
  | netGet (url : String)
  | netPost (url : String)
  | netStream (url : String)
  deriving DecidableEq, Repr

/-- Result of a network call through the external client: an HTTP response,
or one of the exceptions the `except` clauses in `get` distinguish. -/
inductive HttpResult where
  | response (status : Nat) (text : String)
  | challengeError
  | otherError
  deriving DecidableEq, Repr

/-- Result of a streamed GET in `download_file`: a response whose body is a
byte list, or an exception raised by the client. -/
inductive StreamResult where
  | response (status : Nat) (body : List Nat)
  | connError
  deriving DecidableEq, Repr

/-- Construction configuration.  `urlHash` stands for Python's builtin
`hash` on strings, which is an arbitrary per-process deterministic function
(seeded by `PYTHONHASHSEED`), so the embedding takes it as a parameter. -/
structure Config where
  delayMin : ℚ
  delayMax : ℚ
  urlHash : String → Int

/-- Wrapper state: the in-memory `last_request_time` plus the parts of the
filesystem the wrapper touches (cache files, directories, downloaded
files).  Directory existence is a predicate on path strings. -/
structure State where
  cacheFiles : String → Option CacheFile
  dirs : String → Bool
  outFiles : String → Option (List Nat)
  lastRequestTime : ℚ

/-- The host component extracted by `urlparse(url).netloc`: the text after
`"://"` and before the next `/`, `?` or `#`.  No claim depends on the exact
host string, only on this being a deterministic function of the URL. -/
def netlocOf (url : String) : String :=
  match url.splitOn "://" with
  | _ :: rest :: _ =>
      ((((rest.splitOn "/").headD "").splitOn "?").headD "").splitOn "#" |>.headD ""
  | _ => ""

/-- The `/`-separated components of a path. -/
def splitPath (path : String) : List String :=
  (path.toList.splitOn '/').map (fun cs => String.mk cs)

/-- `os.path.dirname`: everything before the last `/`, `""` if none. -/
def dirname (path : String) : String :=
  let parts := splitPath path
  if parts.length ≤ 1 then "" else String.intercalate "/" parts.dropLast

/-- The non-empty `/`-prefixes of a path, as created by
`os.makedirs(path, exist_ok=True)` (each ancestor directory plus the path
itself). -/
def ancestors (path : String) : List String :=
  (List.range (splitPath path).length).map
    (fun k => String.intercalate "/" ((splitPath path).take (k + 1)))

/-- `os.makedirs(path, exist_ok=True)` on the directory predicate. -/
def makedirs (dirs : String → Bool) (path : String) : String → Bool :=
  fun d => d ∈ ancestors path || dirs d

/-- `response.iter_content(chunk_size=n)`: the body split into successive
chunks of `n` bytes (the last one possibly shorter).  The `0` case is
unreachable in the code (`n = 8192`). -/
def chunksOf : Nat → List Nat → List (List Nat)
  | _, [] => []
  | 0, l => [l]
  | n + 1, x :: xs => (x :: xs.take n) :: chunksOf (n + 1) (xs.drop n)
termination_by n l => l.length
decreasing_by
  simp only [List.length_drop, List.length_cons]
  omega

/-- `_get_cache_filename`: `os.path.join('cache', f"{netloc}_{hash(url)}.json")`. -/
def CloudScraperWrapper.cacheFilename (cfg : Config) (url : String) : String :=
  "cache" ++ "/" ++ netlocOf url ++ "_" ++ toString (cfg.urlHash url) ++ ".json"

/-- `__init__` (state part): `last_request_time = 0` and
`os.makedirs('cache', exist_ok=True)` over an ambient filesystem state. -/
def CloudScraperWrapper.initState (s : State) : State :=
  { s with dirs := makedirs s.dirs "cache", lastRequestTime := 0 }

/-- `_respect_rate_limit`: samples `current_time = t1`, a random
`delay ∈ [delayMin, delayMax]`, sleeps the remainder when the elapsed time
is short, then sets `last_request_time` to a fresh sample `t2`. -/
def CloudScraperWrapper.respectRateLimit (s : State) (t1 delay t2 : ℚ) :
    State × List Event :=
  let timePassed := t1 - s.lastRequestTime
  let events := if timePassed < delay then [Event.sleep (delay - timePassed)] else []
  ({ s with lastRequestTime := t2 }, events)

/-- `_save_to_cache`: `open(cache_file, 'w')` succeeds only when the parent
directory `cache` exists (the method does not create it; `__init__` does),
then writes a fresh entry `{timestamp: now, url, data}` over any previous
content. -/
def CloudScraperWrapper.saveToCache (cfg : Config) (s : State) (now : ℚ)
    (url data : String) : Except PyErr State :=
  let file := cacheFilename cfg url
  if s.dirs "cache" then
    Except.ok { s with cacheFiles :=
      fun f => if f = file then some (CacheFile.wellFormed ⟨now, url, data⟩)
               else s.cacheFiles f }
  else Except.error PyErr.fileNotFoundError

/-- `_get_from_cache`: absent file gives `None`; a malformed file raises out
of the method (there is no `try` around `json.load`); a well-formed entry is
returned when `(now - timestamp).total_seconds() < max_age`, else `None`. -/
def CloudScraperWrapper.getFromCache (cfg : Config) (s : State) (now : ℚ)
    (url : String) (maxAge : Int) : Except PyErr (Option String) :=
  let file := cacheFilename cfg url
  match s.cacheFiles file with
  | none => Except.ok none
  | some CacheFile.malformed => Except.error PyErr.jsonDecodeError
  | some (CacheFile.wellFormed e) =>
      if now - e.timestamp < (maxAge : ℚ) then Except.ok (some e.data)
      else Except.ok none

/-- The network path of `get` (everything from `_respect_rate_limit` on):
rate limiting, the GET through the client inside `try`; status 200 saves to
cache when enabled (a failed save is caught by the `except` and yields
`None`) and returns the body; any other status or a caught exception yields
`None`. -/
def CloudScraperWrapper.getNetwork (cfg : Config) (s : State) (url : String)
    (useCache : Bool) (t1 delay t2 : ℚ) (nowSave : ℚ) (net : HttpResult) :
    State × Option String × List Event :=
  let (s1, ev1) := respectRateLimit s t1 delay t2
  let ev := ev1 ++ [Event.netGet url]
  match net with
  | HttpResult.response status text =>
      if status = 200 then
        if useCache then
          match saveToCache cfg s1 nowSave url text with
          | Except.ok s2 => (s2, some text, ev)
          | Except.error _ => (s1, none, ev)
        else (s1, some text, ev)
      else (s1, none, ev)
  | HttpResult.challengeError => (s1, none, ev)
  | HttpResult.otherError => (s1, none, ev)

/-- `get`: optional cache lookup (outside the `try`, so a malformed cache
file propagates to the caller), then the network path.  Python's
`if cached_data:` is a truthiness test, so an empty cached string falls
through to the network path. -/
def CloudScraperWrapper.get (cfg : Config) (s : State) (url : String)
    (useCache : Bool) (maxAge : Int) (nowCache : ℚ) (t1 delay t2 : ℚ)
    (nowSave : ℚ) (net : HttpResult) :
    Except PyErr (State × Option String × List Event) :=
  if useCache then
    match getFromCache cfg s nowCache url maxAge with
    | Except.error e => Except.error e
    | Except.ok (some d) =>
        if d = "" then Except.ok (getNetwork cfg s url useCache t1 delay t2 nowSave net)
        else Except.ok (s, some d, [])
    | Except.ok none => Except.ok (getNetwork cfg s url useCache t1 delay t2 nowSave net)
  else Except.ok (getNetwork cfg s url useCache t1 delay t2 nowSave net)

/-- `post`: rate limiting, then the network call inside `try`; returns the
body on status 200, `None` otherwise; never touches the cache.  Nothing in
the body can escape to the caller, so the result is total. -/
def CloudScraperWrapper.post (cfg : Config) (s : State) (url : String)
    (t1 delay t2 : ℚ) (net : HttpResult) : State × Option String × List Event :=
  let (s1, ev1) := respectRateLimit s t1 delay t2
  let ev := ev1 ++ [Event.netPost url]
  match net with
  | HttpResult.response status text =>
      if status = 200 then (s1, some text, ev) else (s1, none, ev)
  | HttpResult.challengeError => (s1, none, ev)
  | HttpResult.otherError => (s1, none, ev)

/-- `download_file`: rate limiting, streamed GET; on status 200 it runs
`os.makedirs(os.path.dirname(output_path), exist_ok=True)` — which raises
`FileNotFoundError` when the dirname is empty, caught by the `except` —
then writes the body chunk by chunk and returns `True`; any other status or
exception returns `False`. -/
def CloudScraperWrapper.downloadFile (cfg : Config) (s : State)
    (url outputPath : String) (t1 delay t2 : ℚ) (net : StreamResult) :
    State × Bool × List Event :=
  let (s1, ev1) := respectRateLimit s t1 delay t2
  let ev := ev1 ++ [Event.netStream url]
  match net with
  | StreamResult.response status body =>
      if status = 200 then
        let d := dirname outputPath
        if d = "" then (s1, false, ev)
        else
          let written := (chunksOf 8192 body).flatten
          let s2 : State :=
            { s1 with dirs := makedirs s1.dirs d,
                      outFiles := fun f =>
                        (if f = outputPath then some written else s1.outFiles f) }
          (s2, true, ev)
      else (s1, false, ev)
  | StreamResult.connError => (s1, false, ev)

/-! ## Concrete fixtures for witnesses and counterexamples -/

/-- A concrete configuration: `delay_range = (2, 5)` and the process hash
function constantly `0`. -/
def cfg0 : Config := { delayMin := 2, delayMax := 5, urlHash := fun _ => 0 }

/-- Start state right after `__init__`: empty cache, the `cache` directory
present, `last_request_time = 0`. -/
def state0 : State :=
  { cacheFiles := fun _ => none
    dirs := fun d => d == "cache"
    outFiles := fun _ => none
    lastRequestTime := 0 }

/-- `state0` with one well-formed cache entry for URL `"u"` (timestamp
`ts`, body `d`). -/
def sWithEntry (ts : ℚ) (d : String) : State :=
  { state0 with cacheFiles := fun f =>
      (if f = CloudScraperWrapper.cacheFilename cfg0 "u" then
         some (CacheFile.wellFormed ⟨ts, "u", d⟩)
       else none) }

/-- `state0` with a malformed cache file for URL `"u"`. -/
def sMalformed : State :=
  { state0 with cacheFiles := fun f =>
      (if f = CloudScraperWrapper.cacheFilename cfg0 "u" then
         some CacheFile.malformed
       else none) }

/-- A state in which the `cache` directory does not exist (e.g. it was
removed after construction). -/
def sNoDir : State :=
  { cacheFiles := fun _ => none
    dirs := fun _ => false
    outFiles := fun _ => none
    lastRequestTime := 0 }

/-- The state after a first `get("u")` from `state0` that received status
200 with an empty body at time 2: `last_request_time` updated to 1, an
entry with empty `data` cached. -/
def sAfterEmpty : State :=
  { state0 with lastRequestTime := 1,
                cacheFiles := fun f =>
                  (if f = CloudScraperWrapper.cacheFilename cfg0 "u" then
                     some (CacheFile.wellFormed ⟨2, "u", ""⟩)
                   else state0.cacheFiles f) }

/-! ## Helper lemmas about the operations -/

theorem chunksOf_flatten : ∀ (n : Nat) (l : List Nat), (chunksOf n l).flatten = l
  | _, [] => by simp [chunksOf]
  | 0, _ :: _ => by simp [chunksOf]
  | n + 1, x :: xs => by
      have ih := chunksOf_flatten (n + 1) (xs.drop n)
      simp only [chunksOf, List.flatten_cons, ih, List.cons_append,
        List.take_append_drop]
termination_by n l => l.length
decreasing_by simp only [List.length_drop, List.length_cons]; omega

theorem chunksOf_length_le : ∀ (n : Nat) (l : List Nat),
    ∀ c ∈ chunksOf (n + 1) l, c.length ≤ n + 1
  | _, [], _, hc => by simp [chunksOf] at hc
  | n, x :: xs, c, hc => by
      rw [chunksOf] at hc
      rcases List.mem_cons.mp hc with h | h
      · subst h
        simp only [List.length_cons, List.length_take, Nat.add_le_add_iff_right]
        omega
      · exact chunksOf_length_le n (xs.drop n) c h
termination_by n l => l.length
decreasing_by simp only [List.length_drop, List.length_cons]; omega

theorem CloudScraperWrapper.respectRateLimit_state (s : State) (t1 delay t2 : ℚ) :
    (respectRateLimit s t1 delay t2).1 = { s with lastRequestTime := t2 } := rfl

theorem CloudScraperWrapper.saveToCache_ok (cfg : Config) (s : State) (now : ℚ)
    (url data : String) (hdir : s.dirs "cache" = true) :
    saveToCache cfg s now url data = Except.ok
      { s with cacheFiles := fun f =>
          (if f = cacheFilename cfg url then some (CacheFile.wellFormed ⟨now, url, data⟩)
           else s.cacheFiles f) } := by
  simp [saveToCache, hdir]

theorem CloudScraperWrapper.getFromCache_wellFormed (cfg : Config) (s : State)
    (now : ℚ) (url : String) (maxAge : Int) (e : CacheEntry)
    (hfile : s.cacheFiles (cacheFilename cfg url) = some (CacheFile.wellFormed e)) :
    getFromCache cfg s now url maxAge =
      if now - e.timestamp < (maxAge : ℚ) then Except.ok (some e.data)
      else Except.ok none := by
  simp [getFromCache, hfile]

theorem CloudScraperWrapper.get_hit (cfg : Config) (s : State) (url : String)
    (maxAge : Int) (nowCache t1 delay t2 nowSave : ℚ) (net : HttpResult)
    (d : String)
    (hd : getFromCache cfg s nowCache url maxAge = Except.ok (some d))
    (hne : d ≠ "") :
    get cfg s url true maxAge nowCache t1 delay t2 nowSave net =
      Except.ok (s, some d, []) := by
  simp [get, hd, hne]

theorem CloudScraperWrapper.get_miss (cfg : Config) (s : State) (url : String)
    (maxAge : Int) (nowCache t1 delay t2 nowSave : ℚ) (net : HttpResult)
    (hd : getFromCache cfg s nowCache url maxAge = Except.ok none) :
    get cfg s url true maxAge nowCache t1 delay t2 nowSave net =
      Except.ok (getNetwork cfg s url true t1 delay t2 nowSave net) := by
  simp [get, hd]

theorem CloudScraperWrapper.get_empty_hit (cfg : Config) (s : State)
    (url : String) (maxAge : Int) (nowCache t1 delay t2 nowSave : ℚ)
    (net : HttpResult)
    (hd : getFromCache cfg s nowCache url maxAge = Except.ok (some "")) :
    get cfg s url true maxAge nowCache t1 delay t2 nowSave net =
      Except.ok (getNetwork cfg s url true t1 delay t2 nowSave net) := by
  simp [get, hd]

theorem CloudScraperWrapper.getNetwork_200_save (cfg : Config) (s : State)
    (url : String) (t1 delay t2 nowSave : ℚ) (text : String)
    (hdir : s.dirs "cache" = true) :
    getNetwork cfg s url true t1 delay t2 nowSave (HttpResult.response 200 text) =
      ({ s with lastRequestTime := t2,
                cacheFiles := fun f =>
                  (if f = cacheFilename cfg url then
                     some (CacheFile.wellFormed ⟨nowSave, url, text⟩)
                   else s.cacheFiles f) },
       some text,
       (respectRateLimit s t1 delay t2).2 ++ [Event.netGet url]) := by
  have h : ({ s with lastRequestTime := t2 } : State).dirs "cache" = true := hdir
  simp [getNetwork, saveToCache_ok _ _ _ _ _ h, respectRateLimit]

theorem CloudScraperWrapper.getNetwork_non200 (cfg : Config) (s : State)
    (url : String) (useCache : Bool) (t1 delay t2 nowSave : ℚ) (status : Nat)
    (text : String) (hs : status ≠ 200) :
    getNetwork cfg s url useCache t1 delay t2 nowSave (HttpResult.response status text) =
      ({ s with lastRequestTime := t2 }, none,
       (respectRateLimit s t1 delay t2).2 ++ [Event.netGet url]) := by
  simp [getNetwork, respectRateLimit, hs]

theorem CloudScraperWrapper.getNetwork_lastRequestTime (cfg : Config) (s : State)
    (url : String) (useCache : Bool) (t1 delay t2 nowSave : ℚ) (net : HttpResult) :
    ((getNetwork cfg s url useCache t1 delay t2 nowSave net).1).lastRequestTime = t2 := by
  cases net with
  | response status text =>
      by_cases hs : status = 200
      · subst hs
        cases useCache with
        | false => simp [getNetwork, respectRateLimit]
        | true =>
            by_cases hdir : s.dirs "cache" = true
            · simp [getNetwork_200_save cfg s url t1 delay t2 nowSave text hdir]
            · simp [getNetwork, saveToCache, respectRateLimit, hdir]
      · simp [getNetwork_non200 cfg s url useCache t1 delay t2 nowSave status text hs]
  | challengeError => simp [getNetwork, respectRateLimit]
  | otherError => simp [getNetwork, respectRateLimit]

theorem CloudScraperWrapper.getNetwork_events (cfg : Config) (s : State)
    (url : String) (useCache : Bool) (t1 delay t2 nowSave : ℚ) (net : HttpResult) :
    (getNetwork cfg s url useCache t1 delay t2 nowSave net).2.2 =
      (respectRateLimit s t1 delay t2).2 ++ [Event.netGet url] := by
  cases net with
  | response status text =>
      by_cases hs : status = 200
      · subst hs
        cases useCache with
        | false => simp [getNetwork, respectRateLimit]
        | true =>
            by_cases hdir : s.dirs "cache" = true
            · simp [getNetwork_200_save cfg s url t1 delay t2 nowSave text hdir]
            · simp [getNetwork, saveToCache, respectRateLimit, hdir]
      · simp [getNetwork_non200 cfg s url useCache t1 delay t2 nowSave status text hs]
  | challengeError => simp [getNetwork, respectRateLimit]
  | otherError => simp [getNetwork, respectRateLimit]

/-! ## Claim theorems -/

/-- C1: the claim says no exception escapes `get` and that a cache parse
failure degrades to a cache miss.  The code violates this: the cache read
happens before the `try` block, so with a malformed cache file present,
`get(url, use_cache=True)` propagates the JSON parse error to the caller
instead of falling through to the network path. -/
theorem CloudScraperWrapper.get_malformed_cache_propagates :
    get cfg0 sMalformed "u" true 3600 0 1 2 3 4 (HttpResult.response 200 "hello") =
      Except.error PyErr.jsonDecodeError := by
  simp [get, getFromCache, sMalformed]

/-- C10: `post` never reads or writes the cache — cache files, directories
and downloaded files are untouched by any call — and the result is the body
text exactly on status 200, absent otherwise. -/
theorem CloudScraperWrapper.post_spec (cfg : Config) (s : State) (url : String)
    (t1 delay t2 : ℚ) (net : HttpResult) :
    ((post cfg s url t1 delay t2 net).1).cacheFiles = s.cacheFiles ∧
    ((post cfg s url t1 delay t2 net).1).dirs = s.dirs ∧
    ((post cfg s url t1 delay t2 net).1).outFiles = s.outFiles ∧
    (post cfg s url t1 delay t2 net).2.1 =
      (match net with
       | HttpResult.response status text => if status = 200 then some text else none
       | HttpResult.challengeError => none
       | HttpResult.otherError => none) := by
  cases net with
  | response status text =>
      by_cases hs : status = 200 <;> simp [post, respectRateLimit, hs]
  | challengeError => simp [post, respectRateLimit]
  | otherError => simp [post, respectRateLimit]

/-- C6: a `get` call that hits the cache (non-empty fresh cached data)
performs no rate limiting and no network call: it returns the cached body
with the state unchanged (in particular `lastRequestTime`) and an empty
event trace (no sleep, no network request). -/
theorem CloudScraperWrapper.get_cache_hit_frame (cfg : Config) (s : State)
    (url : String) (maxAge : Int) (nowCache t1 delay t2 nowSave : ℚ)
    (net : HttpResult) (d : String)
    (hd : getFromCache cfg s nowCache url maxAge = Except.ok (some d))
    (hne : d ≠ "") :
    get cfg s url true maxAge nowCache t1 delay t2 nowSave net =
      Except.ok (s, some d, []) :=
  get_hit cfg s url maxAge nowCache t1 delay t2 nowSave net d hd hne

/-- Witness for C6: concrete cache hit on a fresh entry for `"u"`. -/
theorem CloudScraperWrapper.get_cache_hit_frame_witness :
    get cfg0 (sWithEntry 0 "hello") "u" true 3600 1 2 3 4 5 HttpResult.otherError =
      Except.ok (sWithEntry 0 "hello", some "hello", []) :=
  get_cache_hit_frame cfg0 (sWithEntry 0 "hello") "u" 3600 1 2 3 4 5
    HttpResult.otherError "hello" (by norm_num [getFromCache, sWithEntry]) (by decide)

/-- C5: a cache entry whose age is ≥ `maxAge` is expired: `readCache`
returns absent, `get` re-fetches over the network (a network GET event is
issued), and on a non-200 re-fetch the expired cache file is still exactly
in place — it is ignored, never deleted. -/
theorem CloudScraperWrapper.get_expired_entry_refetches (cfg : Config) (s : State)
    (url : String) (maxAge : Int) (e : CacheEntry) (now t1 delay t2 nowSave : ℚ)
    (net : HttpResult)
    (hfile : s.cacheFiles (cacheFilename cfg url) = some (CacheFile.wellFormed e))
    (hexp : (maxAge : ℚ) ≤ now - e.timestamp) :
    getFromCache cfg s now url maxAge = Except.ok none ∧
    get cfg s url true maxAge now t1 delay t2 nowSave net =
      Except.ok (getNetwork cfg s url true t1 delay t2 nowSave net) ∧
    Event.netGet url ∈ (getNetwork cfg s url true t1 delay t2 nowSave net).2.2 ∧
    (∀ status text, status ≠ 200 →
      ((getNetwork cfg s url true t1 delay t2 nowSave
          (HttpResult.response status text)).1).cacheFiles = s.cacheFiles) := by
  have hnone : getFromCache cfg s now url maxAge = Except.ok none := by
    rw [getFromCache_wellFormed cfg s now url maxAge e hfile, if_neg (not_lt.mpr hexp)]
  refine ⟨hnone, get_miss _ _ _ _ _ _ _ _ _ _ hnone, ?_, ?_⟩
  · rw [getNetwork_events]
    exact List.mem_append_right _ (List.mem_singleton.mpr rfl)
  · intro status text hs
    rw [getNetwork_non200 cfg s url true t1 delay t2 nowSave status text hs]

/-- Witness for C5: entry from time 0 read at time 4000 with TTL 3600. -/
theorem CloudScraperWrapper.get_expired_entry_refetches_witness :
    getFromCache cfg0 (sWithEntry 0 "old") 4000 "u" 3600 = Except.ok none ∧
    get cfg0 (sWithEntry 0 "old") "u" true 3600 4000 0 0 1 2
        (HttpResult.response 403 "x") =
      Except.ok (getNetwork cfg0 (sWithEntry 0 "old") "u" true 0 0 1 2
        (HttpResult.response 403 "x")) ∧
    Event.netGet "u" ∈ (getNetwork cfg0 (sWithEntry 0 "old") "u" true 0 0 1 2
        (HttpResult.response 403 "x")).2.2 ∧
    (∀ status text, status ≠ 200 →
      ((getNetwork cfg0 (sWithEntry 0 "old") "u" true 0 0 1 2
          (HttpResult.response status text)).1).cacheFiles =
        (sWithEntry 0 "old").cacheFiles) :=
  get_expired_entry_refetches cfg0 (sWithEntry 0 "old") "u" 3600 ⟨0, "u", "old"⟩
    4000 0 0 1 2 (HttpResult.response 403 "x") (by simp [sWithEntry]) (by norm_num)

/-- C7: a fresh cache entry whose stored data is the empty string is
treated as a cache miss (Python truthiness): `get` rate-limits — setting
`lastRequestTime` to the post-wait clock sample — and issues a network GET
instead of returning the cached empty string. -/
theorem CloudScraperWrapper.get_empty_data_refetches (cfg : Config) (s : State)
    (url : String) (maxAge : Int) (e : CacheEntry) (now t1 delay t2 nowSave : ℚ)
    (net : HttpResult)
    (hfile : s.cacheFiles (cacheFilename cfg url) = some (CacheFile.wellFormed e))
    (hdata : e.data = "")
    (hfresh : now - e.timestamp < (maxAge : ℚ)) :
    get cfg s url true maxAge now t1 delay t2 nowSave net =
      Except.ok (getNetwork cfg s url true t1 delay t2 nowSave net) ∧
    Event.netGet url ∈ (getNetwork cfg s url true t1 delay t2 nowSave net).2.2 ∧
    ((getNetwork cfg s url true t1 delay t2 nowSave net).1).lastRequestTime = t2 := by
  have hd : getFromCache cfg s now url maxAge = Except.ok (some "") := by
    rw [getFromCache_wellFormed cfg s now url maxAge e hfile, if_pos hfresh, hdata]
  refine ⟨get_empty_hit _ _ _ _ _ _ _ _ _ _ hd, ?_,
    getNetwork_lastRequestTime _ _ _ _ _ _ _ _ _⟩
  rw [getNetwork_events]
  exact List.mem_append_right _ (List.mem_singleton.mpr rfl)

/-- Witness for C7: fresh entry (age 1 < 3600) with empty data. -/
theorem CloudScraperWrapper.get_empty_data_refetches_witness :
    get cfg0 (sWithEntry 5 "") "u" true 3600 6 7 2 9 10
        (HttpResult.response 200 "hello") =
      Except.ok (getNetwork cfg0 (sWithEntry 5 "") "u" true 7 2 9 10
        (HttpResult.response 200 "hello")) ∧
    Event.netGet "u" ∈ (getNetwork cfg0 (sWithEntry 5 "") "u" true 7 2 9 10
        (HttpResult.response 200 "hello")).2.2 ∧
    ((getNetwork cfg0 (sWithEntry 5 "") "u" true 7 2 9 10
        (HttpResult.response 200 "hello")).1).lastRequestTime = 9 :=
  get_empty_data_refetches cfg0 (sWithEntry 5 "") "u" 3600 ⟨5, "u", ""⟩ 6 7 2 9 10
    (HttpResult.response 200 "hello") (by simp [sWithEntry]) rfl (by norm_num)

/-- C2: for every GET that reaches the network and obtains a response,
the result is the body text exactly when the status is 200 and absent for
any other status; a cache entry (fresh timestamp, url, body) is written iff
the status is exactly 200 and caching is on — otherwise the cache is left
unmodified.  Stated under the invariant that the `cache` directory exists
(it is created at construction and never removed by the wrapper). -/
theorem CloudScraperWrapper.getNetwork_response_spec (cfg : Config) (s : State)
    (url : String) (useCache : Bool) (t1 delay t2 nowSave : ℚ) (status : Nat)
    (text : String) (hdir : s.dirs "cache" = true) :
    ((getNetwork cfg s url useCache t1 delay t2 nowSave
        (HttpResult.response status text)).2.1 =
      if status = 200 then some text else none) ∧
    (status = 200 → useCache = true →
      ((getNetwork cfg s url useCache t1 delay t2 nowSave
          (HttpResult.response status text)).1).cacheFiles (cacheFilename cfg url) =
        some (CacheFile.wellFormed ⟨nowSave, url, text⟩) ∧
      (∀ f, f ≠ cacheFilename cfg url →
        ((getNetwork cfg s url useCache t1 delay t2 nowSave
            (HttpResult.response status text)).1).cacheFiles f = s.cacheFiles f)) ∧
    (¬(status = 200 ∧ useCache = true) →
      ((getNetwork cfg s url useCache t1 delay t2 nowSave
          (HttpResult.response status text)).1).cacheFiles = s.cacheFiles) := by
  by_cases hs : status = 200
  · subst hs
    cases useCache with
    | true =>
        rw [getNetwork_200_save cfg s url t1 delay t2 nowSave text hdir]
        refine ⟨by simp, fun _ _ => ⟨by simp, fun f hf => by simp [hf]⟩, fun h => ?_⟩
        exact absurd ⟨rfl, rfl⟩ h
    | false =>
        refine ⟨by simp [getNetwork, respectRateLimit], fun _ hfalse => ?_, fun _ => ?_⟩
        · exact absurd hfalse (by simp)
        · simp [getNetwork, respectRateLimit]
  · rw [getNetwork_non200 cfg s url useCache t1 delay t2 nowSave status text hs]
    exact ⟨by simp [hs], fun h => absurd h hs, fun _ => rfl⟩

/-- Witness for C2: status 200 with caching on, from the initial state. -/
theorem CloudScraperWrapper.getNetwork_response_spec_witness :
    ((getNetwork cfg0 state0 "u" true 0 0 1 2
        (HttpResult.response 200 "hello")).2.1 =
      if 200 = 200 then some "hello" else none) ∧
    (200 = 200 → true = true →
      ((getNetwork cfg0 state0 "u" true 0 0 1 2
          (HttpResult.response 200 "hello")).1).cacheFiles (cacheFilename cfg0 "u") =
        some (CacheFile.wellFormed ⟨2, "u", "hello"⟩) ∧
      (∀ f, f ≠ cacheFilename cfg0 "u" →
        ((getNetwork cfg0 state0 "u" true 0 0 1 2
            (HttpResult.response 200 "hello")).1).cacheFiles f = state0.cacheFiles f)) ∧
    (¬(200 = 200 ∧ true = true) →
      ((getNetwork cfg0 state0 "u" true 0 0 1 2
          (HttpResult.response 200 "hello")).1).cacheFiles = state0.cacheFiles) :=
  getNetwork_response_spec cfg0 state0 "u" true 0 0 1 2 200 "hello" (by decide)

/-- C3 counterexample: the claim fails when the 200 response body is the
empty string.  First call from the fresh state caches the empty body; the
second call 1 second later (well within the TTL) is NOT served from the
cache: it issues another network GET and returns the new network body
(`"different"`), not the cached one. -/
theorem CloudScraperWrapper.get_twice_counterexample :
    get cfg0 state0 "u" true 3600 0 0 0 1 2 (HttpResult.response 200 "") =
      Except.ok (sAfterEmpty, some "", [Event.netGet "u"]) ∧
    get cfg0 sAfterEmpty "u" true 3600 3 1 0 2 4
        (HttpResult.response 200 "different") =
      Except.ok
        ({ sAfterEmpty with
            lastRequestTime := 2,
            cacheFiles := fun f =>
              (if f = cacheFilename cfg0 "u" then
                 some (CacheFile.wellFormed ⟨4, "u", "different"⟩)
               else sAfterEmpty.cacheFiles f) },
         some "different", [Event.netGet "u"]) := by
  have hmiss : getFromCache cfg0 state0 0 "u" 3600 = Except.ok none := by
    simp [getFromCache, state0]
  constructor
  · rw [get_miss _ _ _ _ _ _ _ _ _ _ hmiss,
        getNetwork_200_save cfg0 state0 "u" 0 0 1 2 "" (by decide)]
    norm_num [respectRateLimit, sAfterEmpty, state0]
  · have hread : getFromCache cfg0 sAfterEmpty 3 "u" 3600 = Except.ok (some "") := by
      norm_num [getFromCache, sAfterEmpty, state0]
    rw [get_empty_hit _ _ _ _ _ _ _ _ _ _ hread,
        getNetwork_200_save cfg0 sAfterEmpty "u" 1 0 2 4 "different" (by decide)]
    norm_num [respectRateLimit, sAfterEmpty, state0]

/-- C3 (amended): if the first call misses the cache, receives status 200
with a NON-EMPTY body, and the second read happens within the TTL window,
then the second call is a pure cache hit: same body, unchanged state, no
sleep and no network call, whatever the second call's clock samples and
network oracle would have been. -/
theorem CloudScraperWrapper.get_twice_cache_hit (cfg : Config) (s : State)
    (url : String) (maxAge : Int) (text : String)
    (nowCache1 t1 delay t2 nowSave now2 : ℚ)
    (hdir : s.dirs "cache" = true)
    (hmiss : getFromCache cfg s nowCache1 url maxAge = Except.ok none)
    (hne : text ≠ "")
    (hfresh : now2 - nowSave < (maxAge : ℚ)) :
    ∃ s1 ev1,
      get cfg s url true maxAge nowCache1 t1 delay t2 nowSave
          (HttpResult.response 200 text) = Except.ok (s1, some text, ev1) ∧
      ∀ t1b delayb t2b nowSaveb netb,
        get cfg s1 url true maxAge now2 t1b delayb t2b nowSaveb netb =
          Except.ok (s1, some text, []) := by
  rw [get_miss _ _ _ _ _ _ _ _ _ _ hmiss,
      getNetwork_200_save cfg s url t1 delay t2 nowSave text hdir]
  refine ⟨_, _, rfl, ?_⟩
  intro t1b delayb t2b nowSaveb netb
  have hfile : ({ s with
      lastRequestTime := t2,
      cacheFiles := fun f =>
        (if f = cacheFilename cfg url then
           some (CacheFile.wellFormed ⟨nowSave, url, text⟩)
         else s.cacheFiles f) } : State).cacheFiles (cacheFilename cfg url) =
      some (CacheFile.wellFormed ⟨nowSave, url, text⟩) := by simp
  have hread := getFromCache_wellFormed cfg _ now2 url maxAge _ hfile
  rw [if_pos hfresh] at hread
  exact get_hit cfg _ url maxAge now2 t1b delayb t2b nowSaveb netb text hread hne

/-- Witness for C3 (amended): body `"hello"`, second read 1 second after
the save, TTL 3600. -/
theorem CloudScraperWrapper.get_twice_cache_hit_witness :
    ∃ s1 ev1,
      get cfg0 state0 "u" true 3600 0 0 0 1 2
          (HttpResult.response 200 "hello") = Except.ok (s1, some "hello", ev1) ∧
      ∀ t1b delayb t2b nowSaveb netb,
        get cfg0 s1 "u" true 3600 3 t1b delayb t2b nowSaveb netb =
          Except.ok (s1, some "hello", []) :=
  get_twice_cache_hit cfg0 state0 "u" 3600 "hello" 0 0 0 1 2 3 (by decide)
    (by simp [getFromCache, state0]) (by decide) (by norm_num)

/-- C4 counterexample: the claim fails for an output path with no parent
directory component.  With a 200 response, `os.makedirs(os.path.dirname
("file.bin"))` is `os.makedirs("")`, which raises `FileNotFoundError`; the
exception is caught and `download_file` returns `False` — no file is
written even though the streamed GET returned 200. -/
theorem CloudScraperWrapper.downloadFile_no_parent_counterexample :
    downloadFile cfg0 state0 "https://x/file.bin" "file.bin" 0 0 1
        (StreamResult.response 200 [7, 7, 7]) =
      ({ state0 with lastRequestTime := 1 }, false,
       [Event.netStream "https://x/file.bin"]) := by
  have hdn : dirname "file.bin" = "" := by decide
  norm_num [downloadFile, respectRateLimit, hdn, state0]

/-- C4 (amended): for an output path that has a (non-empty) parent
directory component, a 200 streamed response makes `download_file` create
the parent directory chain, write the file byte-identical to the response
body (streamed in chunks of at most 8192 bytes), and return `true`; a
non-200 status or a client exception yields `false` and writes nothing. -/
theorem CloudScraperWrapper.downloadFile_spec (cfg : Config) (s : State)
    (url outputPath : String) (t1 delay t2 : ℚ) (status : Nat)
    (body : List Nat) (hd : dirname outputPath ≠ "") :
    (status = 200 →
      (downloadFile cfg s url outputPath t1 delay t2
          (StreamResult.response status body)).2.1 = true ∧
      ((downloadFile cfg s url outputPath t1 delay t2
          (StreamResult.response status body)).1).outFiles outputPath = some body ∧
      (∀ a ∈ ancestors (dirname outputPath),
        ((downloadFile cfg s url outputPath t1 delay t2
            (StreamResult.response status body)).1).dirs a = true) ∧
      (∀ c ∈ chunksOf 8192 body, c.length ≤ 8192)) ∧
    (status ≠ 200 →
      (downloadFile cfg s url outputPath t1 delay t2
          (StreamResult.response status body)).2.1 = false ∧
      ((downloadFile cfg s url outputPath t1 delay t2
          (StreamResult.response status body)).1).outFiles = s.outFiles) ∧
    ((downloadFile cfg s url outputPath t1 delay t2 StreamResult.connError).2.1
        = false ∧
     ((downloadFile cfg s url outputPath t1 delay t2
         StreamResult.connError).1).outFiles = s.outFiles) := by
  refine ⟨?_, ?_, ?_⟩
  · intro hs
    subst hs
    refine ⟨by simp [downloadFile, respectRateLimit, hd], ?_, ?_, ?_⟩
    · simp [downloadFile, respectRateLimit, hd, chunksOf_flatten]
    · intro a ha
      simp [downloadFile, respectRateLimit, hd, makedirs, ha]
    · exact chunksOf_length_le 8191 body
  · intro hs
    constructor <;> simp [downloadFile, respectRateLimit, hs]
  · constructor <;> simp [downloadFile, respectRateLimit]

/-- Witness for C4 (amended): 200 response written under `out/sub/`. -/
theorem CloudScraperWrapper.downloadFile_spec_witness :
    (200 = 200 →
      (downloadFile cfg0 state0 "https://x/file.bin" "out/sub/file.bin" 0 0 1
          (StreamResult.response 200 [7, 7, 7])).2.1 = true ∧
      ((downloadFile cfg0 state0 "https://x/file.bin" "out/sub/file.bin" 0 0 1
          (StreamResult.response 200 [7, 7, 7])).1).outFiles "out/sub/file.bin" =
        some [7, 7, 7] ∧
      (∀ a ∈ ancestors (dirname "out/sub/file.bin"),
        ((downloadFile cfg0 state0 "https://x/file.bin" "out/sub/file.bin" 0 0 1
            (StreamResult.response 200 [7, 7, 7])).1).dirs a = true) ∧
      (∀ c ∈ chunksOf 8192 [7, 7, 7], c.length ≤ 8192)) ∧
    (200 ≠ 200 →
      (downloadFile cfg0 state0 "https://x/file.bin" "out/sub/file.bin" 0 0 1
          (StreamResult.response 200 [7, 7, 7])).2.1 = false ∧
      ((downloadFile cfg0 state0 "https://x/file.bin" "out/sub/file.bin" 0 0 1
          (StreamResult.response 200 [7, 7, 7])).1).outFiles = state0.outFiles) ∧
    ((downloadFile cfg0 state0 "https://x/file.bin" "out/sub/file.bin" 0 0 1
        StreamResult.connError).2.1 = false ∧
     ((downloadFile cfg0 state0 "https://x/file.bin" "out/sub/file.bin" 0 0 1
         StreamResult.connError).1).outFiles = state0.outFiles) :=
  downloadFile_spec cfg0 state0 "https://x/file.bin" "out/sub/file.bin" 0 0 1
    200 [7, 7, 7] (by decide)

/-- C8 counterexample: `_save_to_cache` does NOT create the cache
directory (only `__init__` does), so in a state where the `cache`
directory is absent the write raises instead of succeeding. -/
theorem CloudScraperWrapper.saveToCache_missing_dir_counterexample :
    saveToCache cfg0 sNoDir 5 "u" "hello" = Except.error PyErr.fileNotFoundError := by
  simp [saveToCache, sNoDir]

/-- C8 (amended): when the cache directory exists, `writeCache` overwrites
the entry at `cacheKey(url)` with a fresh `{timestamp: now, url, data}` and
touches nothing else; the cache directory is created (idempotently) at
construction time, not by `writeCache` itself, so a write with the
directory absent fails instead of succeeding. -/
theorem CloudScraperWrapper.saveToCache_spec (cfg : Config) (s : State)
    (now : ℚ) (url data : String) (hdir : s.dirs "cache" = true) :
    (∃ s2, saveToCache cfg s now url data = Except.ok s2 ∧
      s2.cacheFiles (cacheFilename cfg url) =
        some (CacheFile.wellFormed ⟨now, url, data⟩) ∧
      (∀ f, f ≠ cacheFilename cfg url → s2.cacheFiles f = s.cacheFiles f) ∧
      s2.dirs = s.dirs ∧ s2.outFiles = s.outFiles ∧
      s2.lastRequestTime = s.lastRequestTime) ∧
    (initState s).dirs "cache" = true ∧
    initState (initState s) = initState s := by
  refine ⟨⟨_, saveToCache_ok cfg s now url data hdir, by simp,
    fun f hf => by simp [hf], rfl, rfl, rfl⟩, ?_, ?_⟩
  · simp [initState, makedirs, show ("cache" ∈ ancestors "cache") by decide]
  · cases s with
    | mk cf dr ofl lrt =>
        simp only [initState, makedirs]
        congr 1
        funext d
        simp [makedirs, Bool.or_self_left]

/-- Witness for C8 (amended): concrete write into the initial state. -/
theorem CloudScraperWrapper.saveToCache_spec_witness :
    (∃ s2, saveToCache cfg0 state0 7 "u" "hello" = Except.ok s2 ∧
      s2.cacheFiles (cacheFilename cfg0 "u") =
        some (CacheFile.wellFormed ⟨7, "u", "hello"⟩) ∧
      (∀ f, f ≠ cacheFilename cfg0 "u" → s2.cacheFiles f = state0.cacheFiles f) ∧
      s2.dirs = state0.dirs ∧ s2.outFiles = state0.outFiles ∧
      s2.lastRequestTime = state0.lastRequestTime) ∧
    (initState state0).dirs "cache" = true ∧
    initState (initState state0) = initState state0 :=
  saveToCache_spec cfg0 state0 7 "u" "hello" (by decide)

/-- C9: under a non-decreasing clock (the new sample `t2` is at least the
stored `lastRequestTime`), every operation that reaches the rate limiter
sets `lastRequestTime` to the post-wait sample `t2`, and no operation ever
decreases it: `post` and `downloadFile` always, `get` on every
non-exceptional outcome (cache hits leave it unchanged). -/
theorem CloudScraperWrapper.lastRequestTime_monotone (cfg : Config) (s : State)
    (url path : String) (useCache : Bool) (maxAge : Int)
    (nowCache t1 delay t2 nowSave : ℚ) (net : HttpResult) (snet : StreamResult)
    (h2 : s.lastRequestTime ≤ t2) :
    ((respectRateLimit s t1 delay t2).1).lastRequestTime = t2 ∧
    s.lastRequestTime ≤ ((post cfg s url t1 delay t2 net).1).lastRequestTime ∧
    s.lastRequestTime ≤
      ((downloadFile cfg s url path t1 delay t2 snet).1).lastRequestTime ∧
    (∀ s2 r ev,
      get cfg s url useCache maxAge nowCache t1 delay t2 nowSave net =
        Except.ok (s2, r, ev) → s.lastRequestTime ≤ s2.lastRequestTime) := by
  have hpost : ((post cfg s url t1 delay t2 net).1).lastRequestTime = t2 := by
    cases net with
    | response status text =>
        by_cases hs : status = 200 <;> simp [post, respectRateLimit, hs]
    | challengeError => simp [post, respectRateLimit]
    | otherError => simp [post, respectRateLimit]
  have hdl : ((downloadFile cfg s url path t1 delay t2 snet).1).lastRequestTime
      = t2 := by
    cases snet with
    | response status body =>
        by_cases hs : status = 200
        · subst hs
          by_cases hdn : dirname path = "" <;>
            simp [downloadFile, respectRateLimit, hdn]
        · simp [downloadFile, respectRateLimit, hs]
    | connError => simp [downloadFile, respectRateLimit]
  refine ⟨rfl, by rw [hpost]; exact h2, by rw [hdl]; exact h2, ?_⟩
  intro s2 r ev hget
  have hnet : ∀ u : Bool,
      getNetwork cfg s url u t1 delay t2 nowSave net = (s2, r, ev) →
      s.lastRequestTime ≤ s2.lastRequestTime := by
    intro u hxy
    have h1 := getNetwork_lastRequestTime cfg s url u t1 delay t2 nowSave net
    rw [hxy] at h1
    exact h2.trans (le_of_eq h1.symm)
  cases useCache with
  | false =>
      have hxy : getNetwork cfg s url false t1 delay t2 nowSave net = (s2, r, ev) := by
        have h := hget
        simp only [get, Bool.false_eq_true, if_false] at h
        exact Except.ok.inj h
      exact hnet false hxy
  | true =>
      cases hres : getFromCache cfg s nowCache url maxAge with
      | error e => simp [get, hres] at hget
      | ok od =>
          cases od with
          | none =>
              have h := hget
              rw [get_miss _ _ _ _ _ _ _ _ _ _ hres] at h
              exact hnet true (Except.ok.inj h)
          | some d =>
              by_cases hde : d = ""
              · subst hde
                have h := hget
                rw [get_empty_hit _ _ _ _ _ _ _ _ _ _ hres] at h
                exact hnet true (Except.ok.inj h)
              · have h := hget
                rw [get_hit _ _ _ _ _ _ _ _ _ _ _ hres hde] at h
                have hxy := Except.ok.inj h
                have hs2 : s = s2 := congrArg Prod.fst hxy
                rw [← hs2]

/-- Witness for C9: all four conjuncts at a concrete state and inputs. -/
theorem CloudScraperWrapper.lastRequestTime_monotone_witness :
    ((respectRateLimit state0 1 2 3).1).lastRequestTime = 3 ∧
    state0.lastRequestTime ≤
      ((post cfg0 state0 "u" 1 2 3 HttpResult.otherError).1).lastRequestTime ∧
    state0.lastRequestTime ≤
      ((downloadFile cfg0 state0 "u" "out/f.bin" 1 2 3
          StreamResult.connError).1).lastRequestTime ∧
    (∀ s2 r ev,
      get cfg0 state0 "u" true 3600 0 1 2 3 4 HttpResult.otherError =
        Except.ok (s2, r, ev) → state0.lastRequestTime ≤ s2.lastRequestTime) :=
  lastRequestTime_monotone cfg0 state0 "u" "out/f.bin" true 3600 0 1 2 3 4
    HttpResult.otherError StreamResult.connError (by norm_num [state0])
